import Mathlib

/-!
Verification development for the geospatial data pipeline
(`src/ai/scripts/data_pipeline.py`, class `GeoDataPipeline`).

Shallow embedding conventions:
* Pixel values and coordinates are modelled as exact rationals (`ℚ`); the
  Python code computes in IEEE floating point, which we idealise as exact
  field arithmetic.
* File decoding (`gpd.read_file`, `rasterio.open`) is I/O performed by a
  collaborator library, so the ingestion functions are modelled on the
  already-decoded in-memory store.
* Calls into third-party geometry kernels (`rasterio.warp.reproject`,
  `shapely` buffering, the `geopandas` intersects predicate) are passed in
  as function parameters: the embedding fixes exactly the control flow and
  data flow that `data_pipeline.py` itself contributes.
-/

namespace GeoDataPipeline

/-- Raster metadata, mirroring the dict built in `ingest_raster_data`
(`bounds`, `crs`, `width`, `height`, `count`, `dtype`, `nodata`,
`transform`). Bounds and the affine transform are kept as rational lists. -/
structure RasterMetadata where
  bounds : List ℚ
  crs : String
  width : Nat
  height : Nat
  count : Nat
  dtype : String
  nodata : Option ℚ
  transform : List ℚ
  deriving Repr, DecidableEq

/-- One raster band: a height×width grid of pixel values. -/
abbrev Band := List (List ℚ)

/-- The value returned by `ingest_raster_data`: the numpy band stack
`data` (first axis indexes bands, so `data.shape[0]` is `data.length`)
together with its metadata dict. -/
structure RasterStore where
  data : List Band
  metadata : RasterMetadata
  deriving Repr, DecidableEq

/-- `ingest_raster_data` (post-decode): the decoded store is returned
unchanged unless `str(src.crs) != target_crs`, in which case both data and
metadata are replaced by `_reproject_raster`, modelled by the collaborator
parameter `reproj` since it delegates to `rasterio.warp.reproject`. -/
def ingest_raster_data (reproj : RasterStore → String → RasterStore)
    (src : RasterStore) (target_crs : String) : RasterStore :=
  if src.metadata.crs ≠ target_crs then reproj src target_crs else src

/-- The constant `1e-8` added to the NDVI denominator in
`process_satellite_imagery`. -/
def ndviEps : ℚ := 1 / 100000000

/-- One pixel of `(nir - red) / (nir + red + 1e-8)`. -/
def ndviPixel (nir red : ℚ) : ℚ := (nir - red) / (nir + red + ndviEps)

/-- Elementwise combination of two bands (numpy broadcasting on grids of
identical shape). -/
def bandZipWith (f : ℚ → ℚ → ℚ) (a b : Band) : Band :=
  List.zipWith (List.zipWith f) a b

/-- The NDVI computation of `process_satellite_imagery`:
`nir = data[3]`, `red = data[2]`, `ndvi = (nir - red) / (nir + red + 1e-8)`
(the code's comment: NIR is band 4, Red is band 3, zero-based indices 3
and 2). -/
def computeNdvi (data : List Band) : Band :=
  bandZipWith ndviPixel (data.getD 3 []) (data.getD 2 [])

/-- The value returned by `process_satellite_imagery`: the `results` dict
(which only ever receives the key `'ndvi'`; the `'clip'` and `'resample'`
branches are logging placeholders) and the metadata of the ingested
store. -/
structure ProcessResult where
  ndvi : Option Band
  metadata : RasterMetadata
  deriving Repr, DecidableEq

/-- `process_satellite_imagery`: ingest with the default
`target_crs = "EPSG:4326"`, then fold over `operations`; the `'ndvi'`
operation stores `computeNdvi` into the results only when
`data.shape[0] >= 4`, all other operations leave the results unchanged. -/
def process_satellite_imagery (reproj : RasterStore → String → RasterStore)
    (src : RasterStore) (operations : List String) : ProcessResult :=
  let store := ingest_raster_data reproj src "EPSG:4326"
  let results := operations.foldl
    (fun acc op =>
      if op = "ndvi" ∧ 4 ≤ store.data.length then some (computeNdvi store.data)
      else acc)
    none
  ⟨results, store.metadata⟩

end GeoDataPipeline

namespace GeoDataPipeline

/-- Sample metadata for a 4-band 2×2 raster already in the pipeline's
default CRS. -/
def sampleMeta : RasterMetadata :=
  ⟨[0, 0, 2, 2], "EPSG:4326", 2, 2, 4, "uint8", none, [1, 0, 0, 0, -1, 2]⟩

/-- A 4-band 2×2 raster: band 3 (red, index 2) constant 10, band 4
(nir, index 3) constant 30. -/
def sampleStore4 : RasterStore :=
  ⟨[[[5, 5], [5, 5]], [[7, 7], [7, 7]],
    [[10, 10], [10, 10]], [[30, 30], [30, 30]]], sampleMeta⟩

/-- C1: for an ingested 4-band 2×2 raster in the default CRS whose red band
(index 2) is constantly 10 and whose near-infrared band (index 3) is
constantly 30, the 'ndvi' operation of `process_satellite_imagery` returns
a single-band 2×2 grid every pixel of which equals
`(30 - 10) / (30 + 10 + 1e-8)`. -/
theorem ndvi_concrete_scenario (reproj : RasterStore → String → RasterStore)
    (src : RasterStore)
    (hcrs : src.metadata.crs = "EPSG:4326")
    (hlen : src.data.length = 4)
    (hred : src.data.getD 2 [] = [[10, 10], [10, 10]])
    (hnir : src.data.getD 3 [] = [[30, 30], [30, 30]]) :
    (process_satellite_imagery reproj src ["ndvi"]).ndvi =
      some [[(30 - 10) / (30 + 10 + ndviEps), (30 - 10) / (30 + 10 + ndviEps)],
            [(30 - 10) / (30 + 10 + ndviEps), (30 - 10) / (30 + 10 + ndviEps)]] := by
  have hval : computeNdvi src.data =
      [[(30 - 10) / (30 + 10 + ndviEps), (30 - 10) / (30 + 10 + ndviEps)],
       [(30 - 10) / (30 + 10 + ndviEps), (30 - 10) / (30 + 10 + ndviEps)]] := by
    rw [computeNdvi, hred, hnir]
    rfl
  simp only [process_satellite_imagery, ingest_raster_data, hcrs, ne_eq,
    not_true_eq_false, if_false, List.foldl_cons, List.foldl_nil, hlen]
  simp [hval]

/-- Witness for C1 at the concrete store `sampleStore4`. -/
theorem ndvi_concrete_scenario_witness :
    (process_satellite_imagery (fun s _ => s) sampleStore4 ["ndvi"]).ndvi =
      some [[(30 - 10) / (30 + 10 + ndviEps), (30 - 10) / (30 + 10 + ndviEps)],
            [(30 - 10) / (30 + 10 + ndviEps), (30 - 10) / (30 + 10 + ndviEps)]] :=
  ndvi_concrete_scenario (fun s _ => s) sampleStore4 rfl rfl rfl rfl

/-- Metadata of a 3-band 2×2 raster in the default CRS. -/
def sampleMeta3 : RasterMetadata :=
  ⟨[0, 0, 2, 2], "EPSG:4326", 2, 2, 3, "uint8", none, [1, 0, 0, 0, -1, 2]⟩

/-- A 3-band 2×2 raster: too few bands for the hardcoded NDVI indices. -/
def sampleStore3 : RasterStore :=
  ⟨[[[10, 10], [10, 10]], [[20, 20], [20, 20]], [[30, 30], [30, 30]]], sampleMeta3⟩

/-- C2 counterexample: on a 3-band store, `process_satellite_imagery` with
the 'ndvi' operation does not fail at all — the guard
`data.shape[0] >= 4` silently skips the computation and a normal result is
returned whose ndvi entry is simply absent. -/
theorem ndvi_insufficient_bands_counterexample :
    process_satellite_imagery (fun s _ => s) sampleStore3 ["ndvi"] =
      ⟨none, sampleMeta3⟩ := by
  rfl

/-- Helper: folding the operation loop never turns an absent ndvi entry
into a present one when the store holds fewer than 4 bands. -/
theorem ndvi_foldl_skip (store : RasterStore) (hlen : store.data.length < 4)
    (operations : List String) (acc : Option Band) :
    operations.foldl
      (fun acc op =>
        if op = "ndvi" ∧ 4 ≤ store.data.length then some (computeNdvi store.data)
        else acc)
      acc = acc := by
  induction operations generalizing acc with
  | nil => rfl
  | cons op ops ih =>
      have hcond : ¬(op = "ndvi" ∧ 4 ≤ store.data.length) := by
        rintro ⟨-, h4⟩
        omega
      simp only [List.foldl_cons, if_neg hcond]
      exact ih acc

/-- C2 amended: for every store with fewer than 4 bands (already in the
default CRS) and every operation list, `process_satellite_imagery` skips
the NDVI computation silently: it returns a result whose ndvi entry is
absent, and no `InsufficientBands` error is signalled (no such error path
exists in the code). -/
theorem ndvi_insufficient_bands_skipped
    (reproj : RasterStore → String → RasterStore) (src : RasterStore)
    (hcrs : src.metadata.crs = "EPSG:4326") (hlen : src.data.length < 4)
    (operations : List String) :
    (process_satellite_imagery reproj src operations).ndvi = none := by
  simp only [process_satellite_imagery, ingest_raster_data, hcrs, ne_eq,
    not_true_eq_false, if_false]
  exact ndvi_foldl_skip src hlen operations none

/-- Witness for the amended C2 at the concrete 3-band store. -/
theorem ndvi_insufficient_bands_skipped_witness :
    (process_satellite_imagery (fun s _ => s) sampleStore3
      ["ndvi", "clip", "resample"]).ndvi = none :=
  ndvi_insufficient_bands_skipped (fun s _ => s) sampleStore3 rfl
    (by decide) ["ndvi", "clip", "resample"]

/-- Metadata for a 4-band 2×2 raster that declares the nodata sentinel 0. -/
def nodataMeta : RasterMetadata :=
  ⟨[0, 0, 2, 2], "EPSG:4326", 2, 2, 4, "float32", some 0, [1, 0, 0, 0, -1, 2]⟩

/-- A 4-band 2×2 raster with nodata sentinel 0, whose nir band (index 3)
holds the nodata value 0 at the top-left pixel. -/
def nodataStore : RasterStore :=
  ⟨[[[1, 1], [1, 1]], [[2, 2], [2, 2]],
    [[10, 10], [10, 10]], [[0, 30], [30, 30]]], nodataMeta⟩

/-- C3 counterexample: on a store with nodata sentinel 0 whose nir operand
equals nodata at the top-left pixel, the NDVI result holds the arithmetic
value `(0 - 10) / (0 + 10 + 1e-8)` there — which differs from the nodata
value — instead of propagating nodata. -/
theorem ndvi_nodata_counterexample :
    nodataStore.metadata.nodata = some 0 ∧
    (process_satellite_imagery (fun s _ => s) nodataStore ["ndvi"]).ndvi =
      some [[(0 - 10) / (0 + 10 + ndviEps), (30 - 10) / (30 + 10 + ndviEps)],
            [(30 - 10) / (30 + 10 + ndviEps), (30 - 10) / (30 + 10 + ndviEps)]] ∧
    (0 - 10) / (0 + 10 + ndviEps) ≠ (0 : ℚ) := by
  have h3 : (0 - 10) / (0 + 10 + ndviEps) ≠ (0 : ℚ) := by
    rw [ndviEps]
    norm_num
  exact ⟨rfl, rfl, h3⟩

/-- C3 amended: the NDVI operation never consults the nodata sentinel: for
every 4-or-more-band store in the default CRS, the result is the pure
pointwise formula applied to bands 3 and 2, whatever the metadata's nodata
field holds and wherever the sentinel occurs in the operand bands. -/
theorem ndvi_ignores_nodata
    (reproj : RasterStore → String → RasterStore) (src : RasterStore)
    (hcrs : src.metadata.crs = "EPSG:4326") (hlen : 4 ≤ src.data.length) :
    (process_satellite_imagery reproj src ["ndvi"]).ndvi =
      some (bandZipWith ndviPixel (src.data.getD 3 []) (src.data.getD 2 [])) := by
  simp only [process_satellite_imagery, ingest_raster_data, hcrs, ne_eq,
    not_true_eq_false, if_false, List.foldl_cons, List.foldl_nil]
  rw [if_pos ⟨trivial, hlen⟩]
  rfl

/-- Witness for the amended C3 at the concrete nodata store. -/
theorem ndvi_ignores_nodata_witness :
    (process_satellite_imagery (fun s _ => s) nodataStore ["ndvi"]).ndvi =
      some (bandZipWith ndviPixel (nodataStore.data.getD 3 [])
        (nodataStore.data.getD 2 [])) :=
  ndvi_ignores_nodata (fun s _ => s) nodataStore rfl (by decide)

/-- One row of a GeoDataFrame: a geometry plus its attribute columns.
The geometry representation `G` is a parameter, since all geometry-level
computation is delegated to the shapely/GEOS collaborator; attribute
values are kept as strings. -/
structure VRow (G : Type) where
  geom : G
  attrs : List (String × String)
  deriving Repr, DecidableEq

/-- A GeoDataFrame as used by the vector half of the pipeline: a CRS
identifier and an ordered sequence of rows. -/
structure VectorStore (G : Type) where
  crs : String
  rows : List (VRow G)
  deriving Repr, DecidableEq

/-- `ingest_vector_data` (post-decode): the GeoDataFrame read from the
file is returned unchanged unless `gdf.crs != crs`, in which case it is
reprojected by `gdf.to_crs(crs)`, modelled by the collaborator parameter
`to_crs`. -/
def ingest_vector_data {G : Type} (to_crs : VectorStore G → String → VectorStore G)
    (gdf : VectorStore G) (crs : String) : VectorStore G :=
  if gdf.crs ≠ crs then to_crs gdf crs else gdf

/-- Modelled from the spec and the `geopandas.sjoin` collaborator (not
part of this repository): the inner spatial join with the `intersects`
predicate emits, for each left row in order, one output row per right row
whose geometry intersects it — left geometry retained, left attributes
followed by the matched right attributes; left rows with no match
contribute nothing. The pixel-level intersects test itself is the
collaborator parameter `intersects`. -/
def sjoin {G : Type} (intersects : G → G → Bool)
    (gdf1 gdf2 : VectorStore G) : VectorStore G :=
  { crs := gdf1.crs
    rows := gdf1.rows.flatMap fun l =>
      (gdf2.rows.filter fun r => intersects l.geom r.geom).map fun r =>
        ⟨l.geom, l.attrs ++ r.attrs⟩ }

/-- `spatial_join`: delegates to `gpd.sjoin(gdf1, gdf2, how, predicate =
'intersects')`. `geopandas.sjoin` performs no CRS check beyond emitting a
warning when the two frames' CRS differ (its `_basic_checks` warns and
proceeds); the Boolean component records whether that CRS-mismatch
warning fires. -/
def spatial_join {G : Type} (intersects : G → G → Bool)
    (gdf1 gdf2 : VectorStore G) : Bool × VectorStore G :=
  (decide (gdf1.crs ≠ gdf2.crs), sjoin intersects gdf1 gdf2)

/-- A distance value as passed to `buffer_analysis`: a Python float,
idealised as an exact rational when finite, with the non-finite values
kept as explicit sentinels. -/
inductive FloatVal where
  | finite (q : ℚ)
  | nan
  | posInf
  | negInf
  deriving Repr, DecidableEq

/-- `buffer_analysis`: copies the GeoDataFrame (`gdf.copy()`) and replaces
its geometry column with `gdf.geometry.buffer(distance)`; the geometry-
level buffer is the shapely/GEOS collaborator parameter `buf`. No check of
any kind is performed on `distance`. -/
def buffer_analysis {G : Type} (buf : FloatVal → G → G)
    (gdf : VectorStore G) (distance : FloatVal) : VectorStore G :=
  { crs := gdf.crs
    rows := gdf.rows.map fun r => ⟨buf distance r.geom, r.attrs⟩ }

/-- Modelled from the spec: the geometry-level buffer primitive (shapely's
`geometry.buffer`, a third-party kernel not part of this repository) is
the spec's Minkowski-sum dilation — a geometry is taken as its point set
in the plane, and dilation by `d` adds every point within distance `d` of
it. -/
def dilate (d : ℝ) (g : Set (ℝ × ℝ)) : Set (ℝ × ℝ) :=
  {x | ∃ p ∈ g, dist x p ≤ d}

/-- The spec-modelled dilation primitive lifted to the `FloatVal` distance
argument of `buffer_analysis` (non-finite distances are outside the spec's
contract; they dilate by 0 here, a choice no theorem relies on). -/
def dilateF (d : FloatVal) (g : Set (ℝ × ℝ)) : Set (ℝ × ℝ) :=
  match d with
  | FloatVal.finite q => dilate (q : ℝ) g
  | _ => dilate 0 g

/-- The statistics dict built by `calculate_statistics`. `mean_area` is
`Option`-valued because pandas' `.mean()` of an empty series yields NaN
rather than raising; `bounds` (numpy `total_bounds`) and the per-geometry
planar `area` are shapely/numpy collaborators passed as parameters. -/
structure StatsResult where
  feature_count : Nat
  total_area : ℚ
  mean_area : Option ℚ
  bounds : List ℚ
  crs : String
  deriving Repr, DecidableEq

/-- `calculate_statistics`: builds the stats dict
`{feature_count: len(gdf), total_area: area.sum(), mean_area: area.mean(),
bounds: total_bounds, crs: str(gdf.crs)}`. -/
def calculate_statistics {G : Type} (area : G → ℚ)
    (total_bounds : List (VRow G) → List ℚ) (gdf : VectorStore G) : StatsResult :=
  { feature_count := gdf.rows.length
    total_area := (gdf.rows.map fun r => area r.geom).sum
    mean_area :=
      if gdf.rows.length = 0 then none
      else some ((gdf.rows.map fun r => area r.geom).sum / gdf.rows.length)
    bounds := total_bounds gdf.rows
    crs := gdf.crs }

/-- A concrete geometry stand-in for witnesses: an axis-aligned box given
by its min and max corners (a point is a degenerate box). -/
abbrev Box := (ℚ × ℚ) × (ℚ × ℚ)

/-- Boundary-inclusive box intersection, the concrete stand-in for the
`intersects` predicate in witnesses. -/
def boxIntersects (a b : Box) : Bool :=
  decide (a.1.1 ≤ b.2.1 ∧ b.1.1 ≤ a.2.1 ∧ a.1.2 ≤ b.2.2 ∧ b.1.2 ≤ a.2.2)

/-- C4: reprojecting a store to its own CRS is the identity. For vector
ingestion, when the decoded layer's CRS already equals the requested one
the GeoDataFrame is returned as-is (no `to_crs` call); for raster
ingestion, when the source CRS already equals `target_crs` the decoded
data and metadata are returned bit-identically (no `_reproject_raster`
call) — for every collaborator reprojection function. -/
theorem reproject_own_crs_identity :
    (∀ (G : Type) (to_crs : VectorStore G → String → VectorStore G)
        (gdf : VectorStore G) (crs : String),
        gdf.crs = crs → ingest_vector_data to_crs gdf crs = gdf) ∧
    (∀ (reproj : RasterStore → String → RasterStore) (src : RasterStore)
        (target_crs : String),
        src.metadata.crs = target_crs →
          ingest_raster_data reproj src target_crs = src) := by
  constructor
  · intro G to_crs gdf crs h
    simp [ingest_vector_data, h]
  · intro reproj src target_crs h
    simp [ingest_raster_data, h]

/-- A single-point vector layer at the origin (spec §8 scenario). -/
def ptStore : VectorStore Box :=
  ⟨"EPSG:4326", [⟨((0, 0), (0, 0)), [("id", "p1")]⟩]⟩

/-- A single-polygon vector layer covering [-1,1]×[-1,1] in the same CRS. -/
def polyStore : VectorStore Box :=
  ⟨"EPSG:4326", [⟨((-1, -1), (1, 1)), [("zone", "z")]⟩]⟩

/-- Witness for C4 at concrete vector and raster stores whose CRS already
equals the requested one. -/
theorem reproject_own_crs_identity_witness :
    ingest_vector_data (fun g _ => g) ptStore "EPSG:4326" = ptStore ∧
    ingest_raster_data (fun s _ => s) sampleStore4 "EPSG:4326" = sampleStore4 :=
  ⟨reproject_own_crs_identity.1 Box (fun g _ => g) ptStore "EPSG:4326" rfl,
   reproject_own_crs_identity.2 (fun s _ => s) sampleStore4 "EPSG:4326" rfl⟩

/-- Helper: a sum over a mapped list is bounded by length times a uniform
bound. -/
theorem list_sum_map_le {α : Type} (l : List α) (f : α → ℕ) (n : ℕ)
    (h : ∀ a ∈ l, f a ≤ n) : (l.map f).sum ≤ l.length * n := by
  induction l with
  | nil => simp
  | cons a t ih =>
      have h1 := h a (List.mem_cons_self a t)
      have h2 := ih fun x hx => h x (List.mem_cons_of_mem a hx)
      simp only [List.map_cons, List.sum_cons, List.length_cons]
      calc f a + (t.map f).sum ≤ n + t.length * n := Nat.add_le_add h1 h2
        _ = (t.length + 1) * n := by ring

/-- C5: for stores with equal CRS, the inner spatial join produces only
rows arising from an intersecting (left, right) pair — left geometry
retained, attributes merged; it emits exactly one output row per
intersecting pair (so left rows with zero matches are dropped), and the
output row count is at most |left| · |right|. -/
theorem spatial_join_inner_sound (G : Type) (intersects : G → G → Bool)
    (gdf1 gdf2 : VectorStore G) (hcrs : gdf1.crs = gdf2.crs) :
    (∀ row ∈ (spatial_join intersects gdf1 gdf2).2.rows,
        ∃ l ∈ gdf1.rows, ∃ r ∈ gdf2.rows,
          intersects l.geom r.geom = true ∧ row.geom = l.geom ∧
          row.attrs = l.attrs ++ r.attrs) ∧
    (spatial_join intersects gdf1 gdf2).2.rows.length =
      (gdf1.rows.map fun l =>
        (gdf2.rows.filter fun r => intersects l.geom r.geom).length).sum ∧
    (spatial_join intersects gdf1 gdf2).2.rows.length ≤
      gdf1.rows.length * gdf2.rows.length := by
  refine ⟨?_, ?_, ?_⟩
  · intro row hrow
    simp only [spatial_join, sjoin, List.mem_flatMap, List.mem_map,
      List.mem_filter] at hrow
    obtain ⟨l, hl, r, ⟨hr, hint⟩, hrw⟩ := hrow
    exact ⟨l, hl, r, hr, hint, by rw [← hrw], by rw [← hrw]⟩
  · simp only [spatial_join, sjoin, List.length_flatMap, List.map_map]
    congr 1
    apply List.map_congr_left
    intro l _
    simp
  · simp only [spatial_join, sjoin, List.length_flatMap]
    apply list_sum_map_le
    intro l _
    simp only [Function.comp_apply, List.length_map]
    exact List.length_filter_le _ _

/-- Witness for C5 at the spec's concrete scenario: a point at the origin
inner-joined with a unit-square polygon layer. -/
theorem spatial_join_inner_sound_witness :
    (∀ row ∈ (spatial_join boxIntersects ptStore polyStore).2.rows,
        ∃ l ∈ ptStore.rows, ∃ r ∈ polyStore.rows,
          boxIntersects l.geom r.geom = true ∧ row.geom = l.geom ∧
          row.attrs = l.attrs ++ r.attrs) ∧
    (spatial_join boxIntersects ptStore polyStore).2.rows.length =
      (ptStore.rows.map fun l =>
        (polyStore.rows.filter fun r => boxIntersects l.geom r.geom).length).sum ∧
    (spatial_join boxIntersects ptStore polyStore).2.rows.length ≤
      ptStore.rows.length * polyStore.rows.length :=
  spatial_join_inner_sound Box boxIntersects ptStore polyStore rfl

/-- The unit-square polygon layer declared in a different CRS (web
mercator). -/
def polyStoreMerc : VectorStore Box :=
  ⟨"EPSG:3857", [⟨((-1, -1), (1, 1)), [("zone", "z")]⟩]⟩

/-- C6 counterexample: joining the origin-point layer (EPSG:4326) with the
web-mercator polygon layer, `spatial_join` does not fail with
`CrsMismatch`: it returns a joined row computed over the raw coordinates
of the two differing coordinate systems (only the geopandas CRS-mismatch
warning flag fires). -/
theorem spatial_join_crs_mismatch_counterexample :
    ptStore.crs ≠ polyStoreMerc.crs ∧
    spatial_join boxIntersects ptStore polyStoreMerc =
      (true, ⟨"EPSG:4326",
        [⟨((0, 0), (0, 0)), [("id", "p1"), ("zone", "z")]⟩]⟩) := by
  constructor
  · decide
  · rfl

/-- C6 amended: when the CRS identifiers differ, `spatial_join` does not
raise — geopandas merely emits a CRS-mismatch warning (the `true` flag)
and proceeds to return the intersects join computed over the raw
coordinates, with no implicit reprojection of either side. -/
theorem spatial_join_crs_mismatch_warns (G : Type) (intersects : G → G → Bool)
    (gdf1 gdf2 : VectorStore G) (hcrs : gdf1.crs ≠ gdf2.crs) :
    spatial_join intersects gdf1 gdf2 = (true, sjoin intersects gdf1 gdf2) := by
  simp [spatial_join, hcrs]

/-- Witness for the amended C6 at the concrete mismatched-CRS layers. -/
theorem spatial_join_crs_mismatch_warns_witness :
    spatial_join boxIntersects ptStore polyStoreMerc =
      (true, sjoin boxIntersects ptStore polyStoreMerc) :=
  spatial_join_crs_mismatch_warns Box boxIntersects ptStore polyStoreMerc
    (by decide)

/-- Dilating a point set by distance 0 is the identity: the only point
within distance 0 of a set is a point of the set. -/
theorem dilate_zero (g : Set (ℝ × ℝ)) : dilate 0 g = g := by
  ext x
  simp only [dilate, Set.mem_setOf_eq, dist_le_zero]
  constructor
  · rintro ⟨p, hp, hxp⟩
    rwa [hxp]
  · intro hx
    exact ⟨x, hx, rfl⟩

/-- C7: buffering with distance 0 returns every geometry unchanged — for
every vector store over the spec-modelled Minkowski-dilation primitive,
`buffer_analysis` at the finite distance 0 is the identity on the store
(hence on every geometry of every type). -/
theorem buffer_zero_identity (gdf : VectorStore (Set (ℝ × ℝ))) :
    buffer_analysis dilateF gdf (FloatVal.finite 0) = gdf := by
  obtain ⟨crs, rows⟩ := gdf
  simp only [buffer_analysis, dilateF, Rat.cast_zero, dilate_zero]
  congr 1
  induction rows with
  | nil => rfl
  | cons r t ih =>
      obtain ⟨geom, attrs⟩ := r
      simp only [List.map_cons, List.cons.injEq]
      exact ⟨trivial, ih⟩

/-- C8 counterexample: `buffer_analysis` called with the non-finite
distance NaN does not fail with `InvalidDistance`: it returns a store (the
delegated geometry-primitive output on every row — here a primitive that
leaves geometries unchanged, making the returned store explicit). -/
theorem buffer_nan_counterexample :
    buffer_analysis (fun _ g => g) ptStore FloatVal.nan = ptStore := by
  rfl

/-- C8 amended: `buffer_analysis` performs no finiteness validation on
`distance`: for every non-finite distance (NaN or ±infinity) it
unconditionally delegates to the geometry buffer primitive and returns the
resulting store — no `InvalidDistance` error path exists in the code. -/
theorem buffer_no_finiteness_check (G : Type) (buf : FloatVal → G → G)
    (gdf : VectorStore G) (distance : FloatVal)
    (h : distance = FloatVal.nan ∨ distance = FloatVal.posInf ∨
      distance = FloatVal.negInf) :
    buffer_analysis buf gdf distance =
      ⟨gdf.crs, gdf.rows.map fun r => ⟨buf distance r.geom, r.attrs⟩⟩ := by
  rfl

/-- Witness for the amended C8 at a concrete store and the NaN distance. -/
theorem buffer_no_finiteness_check_witness :
    buffer_analysis (fun _ g => g) polyStore FloatVal.nan =
      ⟨polyStore.crs,
        polyStore.rows.map fun r =>
          ⟨(fun (_ : FloatVal) (g : Box) => g) FloatVal.nan r.geom, r.attrs⟩⟩ :=
  buffer_no_finiteness_check Box (fun _ g => g) polyStore FloatVal.nan
    (Or.inl rfl)

/-- C9: `calculate_statistics` is a total function whose `feature_count`
is the number of rows; in particular on an empty store it returns (rather
than throwing) with `feature_count = 0`, for every area and total-bounds
collaborator. -/
theorem statistics_feature_count (G : Type) (area : G → ℚ)
    (total_bounds : List (VRow G) → List ℚ) (gdf : VectorStore G) :
    (calculate_statistics area total_bounds gdf).feature_count =
      gdf.rows.length ∧
    (gdf.rows = [] →
      (calculate_statistics area total_bounds gdf).feature_count = 0) := by
  refine ⟨rfl, ?_⟩
  intro h
  simp [calculate_statistics, h]

/-- An empty vector layer. -/
def emptyVStore : VectorStore Box := ⟨"EPSG:4326", []⟩

/-- Witness for C9 at a concrete empty store. -/
theorem statistics_feature_count_witness :
    (calculate_statistics (fun (_ : Box) => 0) (fun _ => []) emptyVStore).feature_count
      = 0 :=
  (statistics_feature_count Box (fun _ => 0) (fun _ => []) emptyVStore).2 rfl

/-- C10: for every finite distance and every geometry-buffer collaborator,
`buffer_analysis` preserves the input's CRS, row count, row order and
every attribute column, replacing only the geometry of each row (the
argument store itself is untouched: the code buffers a copy, and the
embedding is a pure function of the input value). -/
theorem buffer_frame_preservation (G : Type) (buf : FloatVal → G → G)
    (gdf : VectorStore G) (distance : FloatVal) (q : ℚ)
    (h : distance = FloatVal.finite q) :
    (buffer_analysis buf gdf distance).crs = gdf.crs ∧
    (buffer_analysis buf gdf distance).rows.length = gdf.rows.length ∧
    (buffer_analysis buf gdf distance).rows.map VRow.attrs =
      gdf.rows.map VRow.attrs ∧
    (buffer_analysis buf gdf distance).rows =
      gdf.rows.map fun r => ⟨buf distance r.geom, r.attrs⟩ := by
  refine ⟨rfl, ?_, ?_, rfl⟩
  · simp [buffer_analysis]
  · simp [buffer_analysis, List.map_map, Function.comp]

/-- Witness for C10 at a concrete store and the finite distance 2. -/
theorem buffer_frame_preservation_witness :
    (buffer_analysis (fun _ g => g) polyStore (FloatVal.finite 2)).crs =
      polyStore.crs ∧
    (buffer_analysis (fun _ g => g) polyStore (FloatVal.finite 2)).rows.length =
      polyStore.rows.length ∧
    (buffer_analysis (fun _ g => g) polyStore (FloatVal.finite 2)).rows.map
      VRow.attrs = polyStore.rows.map VRow.attrs ∧
    (buffer_analysis (fun _ g => g) polyStore (FloatVal.finite 2)).rows =
      polyStore.rows.map fun r =>
        ⟨(fun (_ : FloatVal) (g : Box) => g) (FloatVal.finite 2) r.geom, r.attrs⟩ :=
  buffer_frame_preservation Box (fun _ g => g) polyStore (FloatVal.finite 2) 2 rfl

end GeoDataPipeline
